import Mathlib

set_option maxRecDepth 40000

/-!
Verification of the GPIC profitability optimizer against its specification.

The repository contains three variants of the optimizer:
* `src/src/Dashboard.jsx` — the exact vertex-enumeration + bisection solver
  (namespace `Dash` below);
* `src/src/dashboard.jsx` — the coarse grid-search solver together with the
  shutdown sweep `generateShutdownData` (namespace `Grid` below);
* `src/hooks/useLPSolver.ts` — a YALPS-backed solver; the LP solve itself is an
  external library, but its pure helpers (`applyGTAdditional`, the gas fields of
  `makeResult`) are embedded in namespace `Hooks` below.

JavaScript numbers are modelled as exact rationals (ℚ); every decimal literal
is read as the rational it denotes.  Loops are modelled as folds over the
explicit candidate lists they enumerate, bisection loops as 60-step structural
recursion.
-/

namespace Dash

/-- Process constants from `src/src/Dashboard.jsx` (Excel LP Solver sheet). -/
def K7 : ℚ := 0.57

def ALPHA : ℚ := 0.1092174534

def C33_COEFF : ℚ := 1.660263

def CAPA : ℚ := 4247

def CAPB : ℚ := 5580

def VP : ℚ := 15

def SGC_AMM : ℚ := 1015.6794425087108

def SGC_METH : ℚ := 1153.1574

def B_AMM : ℚ := 237.35825884315224

def B_METH : ℚ := 110.04648878931908

def B_UREA : ℚ := 104.16894623118665

def GT : ℚ := 5053000

def FL : ℚ := 424700

def GCV : ℚ := 37.325

def FC_AMM : ℚ := 2247735.682209945

def FC_METH : ℚ := 2327405.7096132594

def FC_UREA : ℚ := 3703933.724198895

def FC_TOTAL : ℚ := FC_AMM + FC_METH + FC_UREA

def VC_AMM_SLOPE : ℚ := 38.081561175038956

def VC_AMM_INTERCEPT : ℚ := 8.195855299844169

def VC_METH_SLOPE : ℚ := 40.308054074195155

def VC_METH_INTERCEPT : ℚ := 3.8083837032193912

def VC_UREA_SLOPE : ℚ := 26.51928220655782

def VC_UREA_INTERCEPT : ℚ := 13.717371173768726

def R13_DAILY : ℚ := 739.7285097628476

/-- Unit variable costs per product and case (`calcVC` in Dashboard.jsx). -/
structure VC where
  ammA : ℚ
  ammB : ℚ
  meth : ℚ
  ureaA : ℚ
  ureaB : ℚ
deriving DecidableEq

def calcVC (gasPrice : ℚ) : VC :=
  let aA := VC_AMM_INTERCEPT + VC_AMM_SLOPE * gasPrice
  { ammA := aA
    ammB := aA + VP
    meth := VC_METH_INTERCEPT + VC_METH_SLOPE * gasPrice
    ureaA := VC_UREA_INTERCEPT + VC_UREA_SLOPE * gasPrice
    ureaB := VC_UREA_INTERCEPT + VC_UREA_SLOPE * gasPrice + K7 * VP }

def calcR13 (days : ℚ) : ℚ := R13_DAILY * days

def calcD33 (maxUreaDaily days : ℚ) : ℚ := maxUreaDaily * days / C33_COEFF

/-- Output of the consumption model (`calcGas` in Dashboard.jsx). -/
structure GasOut where
  mmscfd : ℚ
  totalNm3 : ℚ
  steamTph : ℚ
deriving DecidableEq

def calcGas (K10A K10B D5A D5B K9A K9B days : ℚ) : GasOut :=
  let D5 := D5A + D5B
  let C12A := SGC_AMM * K10A
  let C12B := SGC_AMM * K10B
  let D12 := SGC_METH * D5
  let C15A := B_METH * D5A + B_AMM * K10A + B_UREA * K9A
  let C15B := B_METH * D5B + B_AMM * K10B + B_UREA * K9B
  let totalNm3 := C12A + C12B + D12 + GT + C15A + C15B + FL
  { mmscfd := totalNm3 * GCV / (1000000 * days)
    totalNm3 := totalNm3
    steamTph := (C15A + C15B) / 105 / days / 24 }

def calcProfit (pAmm pMeth pUrea : ℚ) (vc : VC)
    (K10A K10B D5A D5B K9A K9B : ℚ) : ℚ :=
  let profitA := (pAmm - vc.ammA) * (K10A - K7 * K9A) + (pMeth - vc.meth) * D5A
      + (pUrea - vc.ureaA) * K9A
  let profitB := (pAmm - vc.ammB) * (K10B - K7 * K9B) + (pMeth - vc.meth) * D5B
      + (pUrea - vc.ureaB) * K9B
  profitA + profitB - FC_TOTAL

/-- Case labels of `solveLP` in Dashboard.jsx (strings in the source). -/
inductive CaseLabel where
  | A
  | B1
  | B2
  | INFEASIBLE
deriving DecidableEq

/-- One argument tuple of a call to `evaluateAndUpdate` in Dashboard.jsx. -/
structure Cand where
  label : CaseLabel
  D5A : ℚ
  D5B : ℚ
  K4A : ℚ
  K4B : ℚ
  K9A : ℚ
  K9B : ℚ
deriving DecidableEq

def candK10A (c : Cand) : ℚ :=
  if c.label = CaseLabel.A then c.K4A - CAPA + ALPHA * c.D5A else 0

def candK10B (c : Cand) : ℚ :=
  if c.label = CaseLabel.A then 0 else c.K4B - CAPB

def candGas (days : ℚ) (c : Cand) : GasOut :=
  calcGas (candK10A c) (candK10B c) c.D5A c.D5B c.K9A c.K9B days

def candProfit (pAmm pMeth pUrea : ℚ) (vc : VC) (c : Cand) : ℚ :=
  calcProfit pAmm pMeth pUrea vc (candK10A c) (candK10B c) c.D5A c.D5B c.K9A c.K9B

/-- Validation performed by `evaluateAndUpdate` before a candidate is scored. -/
def candOK (maxGasMMSCFD days : ℚ) (c : Cand) : Prop :=
  ¬(candK10A c + candK10B c < 0 ∨
      candK10A c + candK10B c - K7 * (c.K9A + c.K9B) < -(1/100)) ∧
  ¬((candGas days c).mmscfd > maxGasMMSCFD + 1/100)

instance (maxGasMMSCFD days : ℚ) (c : Cand) : Decidable (candOK maxGasMMSCFD days c) := by
  unfold candOK; infer_instance

/-- Fields of the best-result record of `solveLP` in Dashboard.jsx. -/
structure Result where
  caseLabel : CaseLabel
  D5A : ℚ
  D5B : ℚ
  K4A : ℚ
  K4B : ℚ
  K10A : ℚ
  K10B : ℚ
  K10 : ℚ
  K9A : ℚ
  K9B : ℚ
  K9 : ℚ
  K8 : ℚ
  K11 : ℚ
  D5 : ℚ
  K4 : ℚ
  gasMMSCFD : ℚ
  gasNm3 : ℚ
  steamTph : ℚ
  profit : ℚ
  dailyAmm : ℚ
  dailyAmmProd : ℚ
  dailyMeth : ℚ
  dailyUrea : ℚ
  vcAmm : ℚ
  vcMeth : ℚ
  vcUrea : ℚ
  y1 : ℚ
  y2 : ℚ
deriving DecidableEq

/-- The record stored for an accepted candidate in `evaluateAndUpdate`. -/
def mkResult (pAmm pMeth pUrea : ℚ) (vc : VC) (days : ℚ) (c : Cand) : Result :=
  let K10 := candK10A c + candK10B c
  let K9 := c.K9A + c.K9B
  let K8 := K7 * K9
  let K11 := K10 - K8
  let D5 := c.D5A + c.D5B
  let g := candGas days c
  { caseLabel := c.label
    D5A := c.D5A, D5B := c.D5B, K4A := c.K4A, K4B := c.K4B
    K10A := candK10A c, K10B := candK10B c, K10 := K10
    K9A := c.K9A, K9B := c.K9B, K9 := K9, K8 := K8
    K11 := max 0 K11
    D5 := D5, K4 := c.K4A + c.K4B
    gasMMSCFD := g.mmscfd, gasNm3 := g.totalNm3, steamTph := g.steamTph
    profit := candProfit pAmm pMeth pUrea vc c
    dailyAmm := K11 / days
    dailyAmmProd := K10 / days
    dailyMeth := D5 / days
    dailyUrea := K9 / days
    vcAmm := if c.label = CaseLabel.A then vc.ammA else vc.ammB
    vcMeth := vc.meth
    vcUrea := if c.label = CaseLabel.A then vc.ureaA else vc.ureaB
    y1 := if c.label = CaseLabel.A then 1 else 0
    y2 := if c.label = CaseLabel.B1 then 1 else 0 }

/-- One step of the best-result update, `evaluateAndUpdate` in Dashboard.jsx. -/
def evaluateAndUpdate (pAmm pMeth pUrea maxGasMMSCFD days : ℚ) (vc : VC)
    (best : Option Result) (c : Cand) : Option Result :=
  if candK10A c + candK10B c < 0 ∨
      candK10A c + candK10B c - K7 * (c.K9A + c.K9B) < -(1/100) then best
  else if (candGas days c).mmscfd > maxGasMMSCFD + 1/100 then best
  else
    match best with
    | none => some (mkResult pAmm pMeth pUrea vc days c)
    | some b =>
        if candProfit pAmm pMeth pUrea vc c > b.profit + 1/1000 then
          some (mkResult pAmm pMeth pUrea vc days c)
        else some b

/-- Gas-binding bisection of Case A (60 halvings on the `K4A` axis). -/
def bisectA (maxGasMMSCFD days D5A E5A : ℚ) : Nat → ℚ → ℚ → ℚ
  | 0, lo, _ => lo
  | n + 1, lo, hi =>
      let mid := (lo + hi) / 2
      let K10A := mid - CAPA + ALPHA * D5A
      if K10A < 0 then bisectA maxGasMMSCFD days D5A E5A n mid hi
      else if (calcGas K10A 0 D5A 0 E5A 0 days).mmscfd ≤ maxGasMMSCFD + 1/1000 then
        bisectA maxGasMMSCFD days D5A E5A n mid hi
      else bisectA maxGasMMSCFD days D5A E5A n lo mid

/-- Gas-binding bisection of sub-case B1. -/
def bisectB1 (maxGasMMSCFD days D5B E5B : ℚ) : Nat → ℚ → ℚ → ℚ
  | 0, lo, _ => lo
  | n + 1, lo, hi =>
      let mid := (lo + hi) / 2
      let K10B := mid - CAPB
      if (calcGas 0 K10B 0 D5B 0 E5B days).mmscfd ≤ maxGasMMSCFD + 1/1000 then
        bisectB1 maxGasMMSCFD days D5B E5B n mid hi
      else bisectB1 maxGasMMSCFD days D5B E5B n lo mid

/-- Gas-binding bisection of sub-case B2 (urea follows the CO₂ limit). -/
def bisectB2 (maxGasMMSCFD days D5B E5B : ℚ) : Nat → ℚ → ℚ → ℚ
  | 0, lo, _ => lo
  | n + 1, lo, hi =>
      let mid := (lo + hi) / 2
      let K10B := mid - CAPB
      let K9B := min E5B (C33_COEFF * K10B)
      if (calcGas 0 K10B 0 D5B 0 K9B days).mmscfd ≤ maxGasMMSCFD + 1/1000 then
        bisectB2 maxGasMMSCFD days D5B E5B n mid hi
      else bisectB2 maxGasMMSCFD days D5B E5B n lo mid

/-- Case-A candidates of `solveLP`: the 8 box vertices plus the gas-binding
vertices found by bisection, in source order.  Candidate construction never
reads the methanol price. -/
def candidatesA (pAmm gasPrice maxAmmDaily maxMethDaily maxUreaDaily
    maxGasMMSCFD days : ℚ) : List Cand :=
  let vc := calcVC gasPrice
  let R13 := calcR13 days
  let maxD5 := maxMethDaily * days
  let maxE5 := maxUreaDaily * days
  let maxK4 := maxAmmDaily * days
  if R13 ≤ maxD5 then
    ([R13, maxD5].flatMap fun D5A =>
      [(1 : ℚ), maxE5].flatMap fun E5A =>
        [(1 : ℚ), maxK4].flatMap fun K4A =>
          let K10A := K4A - CAPA + ALPHA * D5A
          if K10A < 0 then []
          else if K10A - K7 * E5A < -(1/100) then []
          else [⟨CaseLabel.A, D5A, 0, K4A, 0, E5A, 0⟩]) ++
    ([R13, maxD5].flatMap fun D5A =>
      [(1 : ℚ), maxE5].flatMap fun E5A =>
        let lo := CAPA - ALPHA * D5A + 1
        if lo > maxK4 then []
        else
          let loF := bisectA maxGasMMSCFD days D5A E5A 60 lo maxK4
          let K4A := if 0 ≤ pAmm - vc.ammA then loF else 1
          let K10At := K4A - CAPA + ALPHA * D5A
          if 0 ≤ K10At ∧ -(1/100) ≤ K10At - K7 * E5A then
            [⟨CaseLabel.A, D5A, 0, K4A, 0, E5A, 0⟩]
          else [])
  else []

/-- Case-B candidates of `solveLP`: sub-case B1 vertices, B1 gas-binding
vertices, sub-case B2 vertices interleaved with their gas-binding vertex, and
the final fine search, in source order. -/
def candidatesB (pAmm pUrea gasPrice maxAmmDaily maxMethDaily maxUreaDaily
    maxGasMMSCFD days : ℚ) : List Cand :=
  let vc := calcVC gasPrice
  let R13 := calcR13 days
  let D33 := calcD33 maxUreaDaily days
  let maxD5 := maxMethDaily * days
  let maxE5 := maxUreaDaily * days
  let maxK4 := maxAmmDaily * days
  let maxD5B := min (max 1 (R13 - 1)) maxD5
  let cmAmmB := pAmm - vc.ammB
  let cmUreaB := pUrea - vc.ureaB
  let maxK4B1 := min maxK4 (D33 + CAPB)
  let minK4B2 := max (CAPB + 1) (D33 + CAPB + 1/100)
  let gradK10B2 := cmAmmB * (1 - K7 * C33_COEFF) + cmUreaB * C33_COEFF
  ([(1 : ℚ), maxD5B].flatMap fun D5B =>
    [(1 : ℚ), maxE5].flatMap fun E5B =>
      [CAPB + 1, maxK4B1].flatMap fun K4B =>
        if K4B < CAPB + 1 ∨ K4B > maxK4B1 then []
        else
          let K10B := K4B - CAPB
          if K10B > D33 + 1/100 then []
          else if K10B < 0 then []
          else if K10B - K7 * E5B < -(1/100) then []
          else [⟨CaseLabel.B1, 0, D5B, 0, K4B, 0, E5B⟩]) ++
  ([(1 : ℚ), maxD5B].flatMap fun D5B =>
    [(1 : ℚ), maxE5].flatMap fun E5B =>
      if CAPB + 1 > maxK4B1 then []
      else
        let loF := bisectB1 maxGasMMSCFD days D5B E5B 60 (CAPB + 1) maxK4B1
        let K4B := if 0 ≤ cmAmmB then loF else CAPB + 1
        let K10B := K4B - CAPB
        if 0 ≤ K10B ∧ K10B ≤ D33 + 1/100 ∧ -(1/100) ≤ K10B - K7 * E5B then
          [⟨CaseLabel.B1, 0, D5B, 0, K4B, 0, E5B⟩]
        else []) ++
  ([(1 : ℚ), maxD5B].flatMap fun D5B =>
    [(1 : ℚ), maxE5].flatMap fun E5B =>
      ([minK4B2, maxK4].flatMap fun K4B =>
        if K4B < minK4B2 ∨ K4B > maxK4 then []
        else
          let K10B := K4B - CAPB
          if K10B ≤ D33 then []
          else
            let K9B := min E5B (C33_COEFF * K10B)
            if K10B - K7 * K9B < -(1/100) then []
            else [⟨if K9B < E5B then CaseLabel.B2 else CaseLabel.B1, 0, D5B, 0, K4B, 0, K9B⟩]) ++
      (if minK4B2 > maxK4 then []
       else
         let loF := bisectB2 maxGasMMSCFD days D5B E5B 60 minK4B2 maxK4
         let K4Bg := if 0 ≤ gradK10B2 then loF else minK4B2
         let K10Bg := K4Bg - CAPB
         if K10Bg > D33 then
           let K9Bg := min E5B (C33_COEFF * K10Bg)
           if -(1/100) ≤ K10Bg - K7 * K9Bg then
             [⟨if K9Bg < E5B then CaseLabel.B2 else CaseLabel.B1, 0, D5B, 0, K4Bg, 0, K9Bg⟩]
           else []
         else [])) ++
  ([(1 : ℚ), maxD5B].flatMap fun D5B =>
    let E5B := maxE5
    let K10B := maxK4 - CAPB
    if K10B ≤ D33 then []
    else
      let K9Bco2 := C33_COEFF * K10B
      let K9B := min E5B K9Bco2
      if K10B - K7 * K9B < -(1/100) then []
      else
        (⟨if K9Bco2 < E5B then CaseLabel.B2 else CaseLabel.B1, 0, D5B, 0, maxK4, 0, K9B⟩ ::
          (let loF := bisectB2 maxGasMMSCFD days D5B E5B 60 minK4B2 maxK4
           let K10B2 := loF - CAPB
           if K10B2 > D33 then
             let K9B2 := min E5B (C33_COEFF * K10B2)
             if -(1/100) ≤ K10B2 - K7 * K9B2 then
               [⟨if K9B2 < E5B then CaseLabel.B2 else CaseLabel.B1, 0, D5B, 0, loF, 0, K9B2⟩]
             else []
           else [])))

def candidatesList (pAmm pUrea gasPrice maxAmmDaily maxMethDaily maxUreaDaily
    maxGasMMSCFD days : ℚ) : List Cand :=
  candidatesA pAmm gasPrice maxAmmDaily maxMethDaily maxUreaDaily maxGasMMSCFD days ++
  candidatesB pAmm pUrea gasPrice maxAmmDaily maxMethDaily maxUreaDaily maxGasMMSCFD days

/-- The record returned when no candidate is feasible. -/
def infeasibleResult (gasPrice : ℚ) : Result :=
  let vc0 := calcVC gasPrice
  { caseLabel := CaseLabel.INFEASIBLE
    D5A := 0, D5B := 0, K4A := 0, K4B := 0, K10A := 0, K10B := 0, K10 := 0
    K9A := 0, K9B := 0, K9 := 0, K8 := 0, K11 := 0, D5 := 0, K4 := 0
    gasMMSCFD := 0, gasNm3 := 0, steamTph := 0, profit := 0
    dailyAmm := 0, dailyAmmProd := 0, dailyMeth := 0, dailyUrea := 0
    vcAmm := vc0.ammA, vcMeth := vc0.meth, vcUrea := vc0.ureaA
    y1 := 0, y2 := 0 }

/-- Exact-vertex LP solver `solveLP` of `src/src/Dashboard.jsx`. -/
def solveLP (pAmm pMeth pUrea gasPrice maxAmmDaily maxMethDaily maxUreaDaily
    maxGasMMSCFD days : ℚ) : Result :=
  let vc := calcVC gasPrice
  match (candidatesList pAmm pUrea gasPrice maxAmmDaily maxMethDaily maxUreaDaily
      maxGasMMSCFD days).foldl
      (evaluateAndUpdate pAmm pMeth pUrea maxGasMMSCFD days vc) none with
  | none => infeasibleResult gasPrice
  | some r => r

/-- Modelled from the spec (§4.3 Constraint Builder, §3 ProductionPlan): the
Case-A feasible region over (methanol `D5`, gross ammonia throughput `K10`,
urea output `K9`) — box bounds, case partition, ammonia availability and fuel
ceiling; mode A has no yield ceiling.  Used to compare the optimizer's output
with the case's true constraint set. -/
def caseAFeasible (maxAmmDaily maxMethDaily maxUreaDaily maxGasMMSCFD days
    D5 K10 K9 : ℚ) : Prop :=
  0 ≤ D5 ∧ calcR13 days ≤ D5 ∧ D5 ≤ maxMethDaily * days ∧
  0 ≤ K10 ∧ K10 ≤ maxAmmDaily * days ∧
  K10 ≤ maxAmmDaily * days - CAPA + ALPHA * D5 ∧
  0 ≤ K9 ∧ K9 ≤ maxUreaDaily * days ∧
  0 ≤ K10 - K7 * K9 ∧
  (calcGas K10 0 D5 0 K9 0 days).mmscfd ≤ maxGasMMSCFD

instance (a b c e f x y z : ℚ) : Decidable (caseAFeasible a b c e f x y z) := by
  unfold caseAFeasible; infer_instance

/-- Modelled from the spec (§4.3 Constraint Builder): the Case-B feasible
region — box bounds, case partition (methanol below threshold), ammonia
availability with the mode-B capacity loss, the yield ceiling and the fuel
ceiling. -/
def caseBFeasible (maxAmmDaily maxMethDaily maxUreaDaily maxGasMMSCFD days
    D5 K10 K9 : ℚ) : Prop :=
  0 ≤ D5 ∧ D5 < calcR13 days ∧ D5 ≤ maxMethDaily * days ∧
  0 ≤ K10 ∧ K10 ≤ maxAmmDaily * days ∧
  K10 ≤ maxAmmDaily * days - CAPB ∧
  0 ≤ K9 ∧ K9 ≤ maxUreaDaily * days ∧
  (calcD33 maxUreaDaily days < K10 → K9 ≤ C33_COEFF * K10) ∧
  0 ≤ K10 - K7 * K9 ∧
  (calcGas 0 K10 0 D5 0 K9 days).mmscfd ≤ maxGasMMSCFD

instance (a b c e f x y z : ℚ) : Decidable (caseBFeasible a b c e f x y z) := by
  unfold caseBFeasible; infer_instance

/-- Modelled from the spec (§4.4 Case Optimizer): the Case-A objective
`Σ_product (price − unitCost) × volume − fixedCostTotal`, the ammonia volume
being the saleable quantity `K10 − K7·K9`. -/
def objectiveA (pAmm pMeth pUrea gasPrice D5 K10 K9 : ℚ) : ℚ :=
  (pAmm - (calcVC gasPrice).ammA) * (K10 - K7 * K9) +
    (pMeth - (calcVC gasPrice).meth) * D5 +
    (pUrea - (calcVC gasPrice).ureaA) * K9 - FC_TOTAL

/-- Ammonia capacity of the gas-starved scenario: chosen so that the only
enumerated vertex has throughput `0.57` at methanol `R13_DAILY·31`. -/
def W5maxAmm : ℚ := (CAPA + 0.57 - ALPHA * (R13_DAILY * 31)) / 31

/-- Fuel ceiling of the gas-starved scenario: just below the consumption of the
only enumerated vertex, but within the solver's `0.01` acceptance tolerance. -/
def W5maxGas : ℚ := (calcGas 0.57 0 (R13_DAILY * 31) 0 1 0 31).mmscfd - 9/1000

end Dash

namespace Grid

/-- Process constants of `src/src/dashboard.jsx` (table `BASE`). -/
def K7 : ℚ := 0.57

def alpha : ℚ := 0.1092174534

def C33_coeff : ℚ := 1.660263

def SGC_amm : ℚ := 1015.6794

def SGC_meth : ℚ := 1153.1574

def GT_gas : ℚ := 5053000

def flare_gas : ℚ := 424700

def H33 : ℚ := 291.9498

def H34 : ℚ := 682.0557

def H35 : ℚ := 101.2184

def VC_amm_base : ℚ := 198.60366

def VC_meth_base : ℚ := 205.34865

def VC_urea_base : ℚ := 146.31378

def gasVC_amm : ℚ := 144.153

def gasVC_meth : ℚ := 183.963

def gasVC_urea : ℚ := 80.5

def ammPenalty_B : ℚ := 15

def ammCapLoss_B : ℚ := 5580

def ammCapLoss_A : ℚ := 4247

def FC_total : ℚ := 8279075.12

/-- Unit variable costs (`calcVC` in dashboard.jsx): base value at the
reference gas price 5 $/MMBTU plus the gas component scaled by `ratio − 1`. -/
structure VC where
  amm_A : ℚ
  amm_B : ℚ
  meth : ℚ
  urea_A : ℚ
  urea_B : ℚ
deriving DecidableEq

def calcVC (gasPrice : ℚ) : VC :=
  let ratio := gasPrice / 5
  { amm_A := VC_amm_base + gasVC_amm * (ratio - 1)
    amm_B := VC_amm_base + gasVC_amm * (ratio - 1) + ammPenalty_B
    meth := VC_meth_base + gasVC_meth * (ratio - 1)
    urea_A := VC_urea_base + gasVC_urea * (ratio - 1)
    urea_B := VC_urea_base + gasVC_urea * (ratio - 1) + K7 * ammPenalty_B }

def calcGas (K10 D5 K9 days : ℚ) : ℚ :=
  let C12 := SGC_amm * K10
  let D12 := SGC_meth * D5
  let C15 := H34 * D5 + H33 * K10 + H35 * K9
  (C12 + D12 + GT_gas + C15 + flare_gas) * 37.325 / (1000000 * days)

/-- Case tags of the grid solver (strings in the source). -/
inductive CaseT where
  | A
  | B
  | Bmin
  | Infeasible
deriving DecidableEq

structure Result where
  caseType : CaseT
  D5 : ℚ
  K10 : ℚ
  K9 : ℚ
  K8 : ℚ
  K11 : ℚ
  K4 : ℚ
  gas : ℚ
  profit : ℚ
  dailyAmm : ℚ
  dailyMeth : ℚ
  dailyUrea : ℚ
  vcAmm : ℚ
  vcMeth : ℚ
  vcUrea : ℚ
deriving DecidableEq

/-- One Case-A grid iteration of `solveLP` in dashboard.jsx; iteration `k`
stands for the float loop value `frac = 0.6 + 0.005·k`, `k = 0..80`. -/
def mkA (ammP methP ureaP gasP maxAmm maxMeth maxUrea maxGas days : ℚ)
    (k : ℕ) : Option Result :=
  let vc := calcVC gasP
  let K1 := days
  let R4 := K1 * maxAmm
  let S4 := K1 * maxMeth
  let T4 := K1 * maxUrea
  let R13 := maxMeth * 0.6 * K1
  let frac : ℚ := 0.6 + 0.005 * k
  let D5 := min (frac * S4) S4
  if D5 < R13 then none
  else
    let K4 := R4
    let K10 := K4 - ammCapLoss_A + alpha * D5
    let K9 := T4
    let K8 := K7 * K9
    let K11 := K10 - K8
    if K11 < 0 then none
    else
      let gas := calcGas K10 D5 K9 K1
      if gas > maxGas then none
      else some
        { caseType := CaseT.A, D5 := D5, K10 := K10, K9 := K9, K8 := K8
          K11 := K11, K4 := K4, gas := gas
          profit := (ammP - vc.amm_A) * K11 + (methP - vc.meth) * D5 +
            (ureaP - vc.urea_A) * K9 - FC_total
          dailyAmm := K10 / K1, dailyMeth := D5 / K1, dailyUrea := K9 / K1
          vcAmm := vc.amm_A, vcMeth := vc.meth, vcUrea := vc.urea_A }

/-- One Case-B grid iteration; iteration `k` stands for `frac = 0.005·k`,
`k = 0..120`. -/
def mkB (ammP methP ureaP gasP maxAmm maxMeth maxUrea maxGas days : ℚ)
    (k : ℕ) : Option Result :=
  let vc := calcVC gasP
  let K1 := days
  let R4 := K1 * maxAmm
  let S4 := K1 * maxMeth
  let T4 := K1 * maxUrea
  let R13 := maxMeth * 0.6 * K1
  let frac : ℚ := 0.005 * k
  let D5 := max 1 (frac * S4)
  if R13 ≤ D5 then none
  else
    let K4 := R4
    let K10 := K4 - ammCapLoss_B
    let C33 := C33_coeff * K10
    let K9 := min T4 C33
    let K8 := K7 * K9
    let K11 := K10 - K8
    if K11 < 0 then none
    else
      let gas := calcGas K10 D5 K9 K1
      if gas > maxGas then none
      else some
        { caseType := CaseT.B, D5 := D5, K10 := K10, K9 := K9, K8 := K8
          K11 := K11, K4 := K4, gas := gas
          profit := (ammP - vc.amm_B) * K11 + (methP - vc.meth) * D5 +
            (ureaP - vc.urea_B) * K9 - FC_total
          dailyAmm := K10 / K1, dailyMeth := D5 / K1, dailyUrea := K9 / K1
          vcAmm := vc.amm_B, vcMeth := vc.meth, vcUrea := vc.urea_B }

/-- The explicit shutdown try (`D5 = 1`) at the end of `solveLP` in
dashboard.jsx; validated against the same guards. -/
def bMinResult (ammP methP ureaP gasP maxAmm maxUrea maxGas days : ℚ) :
    Option Result :=
  let vc := calcVC gasP
  let K1 := days
  let R4 := K1 * maxAmm
  let T4 := K1 * maxUrea
  let D5 : ℚ := 1
  let K4 := R4
  let K10 := K4 - ammCapLoss_B
  let C33 := C33_coeff * K10
  let K9 := min T4 C33
  let K8 := K7 * K9
  let K11 := K10 - K8
  if 0 ≤ K11 then
    let gas := calcGas K10 D5 K9 K1
    if gas ≤ maxGas then some
      { caseType := CaseT.Bmin, D5 := D5, K10 := K10, K9 := K9, K8 := K8
        K11 := K11, K4 := K4, gas := gas
        profit := (ammP - vc.amm_B) * K11 + (methP - vc.meth) * D5 +
          (ureaP - vc.urea_B) * K9 - FC_total
        dailyAmm := K10 / K1, dailyMeth := D5 / K1, dailyUrea := K9 / K1
        vcAmm := vc.amm_B, vcMeth := vc.meth, vcUrea := vc.urea_B }
    else none
  else none

/-- Strict best-profit update (`if (profit > best.profit)`). -/
def better (b : Option Result) (r : Result) : Option Result :=
  match b with
  | none => some r
  | some b0 => if r.profit > b0.profit then some r else some b0

def infeasible (gasP : ℚ) : Result :=
  let vc := calcVC gasP
  { caseType := CaseT.Infeasible, D5 := 0, K10 := 0, K9 := 0, K8 := 0
    K11 := 0, K4 := 0, gas := 0, profit := 0
    dailyAmm := 0, dailyMeth := 0, dailyUrea := 0
    vcAmm := vc.amm_A, vcMeth := vc.meth, vcUrea := vc.urea_A }

/-- Grid-search LP solver `solveLP` of `src/src/dashboard.jsx`. -/
def solveLP (ammP methP ureaP gasP maxAmm maxMeth maxUrea maxGas days : ℚ) :
    Result :=
  let candsA := (List.range 81).filterMap
    (mkA ammP methP ureaP gasP maxAmm maxMeth maxUrea maxGas days)
  let candsB := (List.range 121).filterMap
    (mkB ammP methP ureaP gasP maxAmm maxMeth maxUrea maxGas days)
  let candsBmin := (bMinResult ammP methP ureaP gasP maxAmm maxUrea maxGas days).toList
  match (candsA ++ candsB ++ candsBmin).foldl better none with
  | none => infeasible gasP
  | some r => r

/-- Constant shutdown profit of `generateShutdownData` in dashboard.jsx:
Case B with the methanol plant fully down (`D5 = 0`, no methanol revenue). -/
def shutdownProfitVal (ammP ureaP gasP maxAmm maxUrea days : ℚ) : ℚ :=
  let vc := calcVC gasP
  let R4 := days * maxAmm
  let T4 := days * maxUrea
  let K10_shut := R4 - ammCapLoss_B
  let C33_shut := C33_coeff * K10_shut
  let K9_shut := min T4 C33_shut
  let K8_shut := K7 * K9_shut
  let K11_shut := K10_shut - K8_shut
  (ammP - vc.amm_B) * K11_shut + (ureaP - vc.urea_B) * K9_shut - FC_total

/-- Running profit at grid point `k` of the shutdown sweep (methanol price
`5·k`, `k = 0..70`). -/
def runningProfit (ammP ureaP gasP maxAmm maxMeth maxUrea maxGas days : ℚ)
    (k : ℕ) : ℚ :=
  (solveLP ammP (5 * k) ureaP gasP maxAmm maxMeth maxUrea maxGas days).profit

/-- First adjacent grid pair `(k, k+1)` with `f k ≤ shut < f (k+1)`, scanning
`n` pairs from index `k`; this is the condition
`prevDiff ≤ 0 && diff > 0 && crossover === null` of the sweep loop. -/
def firstCrossFrom (f : ℕ → ℚ) (shut : ℚ) : ℕ → ℕ → Option ℕ
  | _, 0 => none
  | k, n + 1 =>
      if f k ≤ shut ∧ shut < f (k + 1) then some k
      else firstCrossFrom f shut (k + 1) n

/-- Crossover computation of the sweep loop: linear interpolation
`prevMp + 5·(−prevDiff)/(diff − prevDiff)` at the first crossing pair. -/
def crossoverOf (f : ℕ → ℚ) (shut : ℚ) : Option ℚ :=
  (firstCrossFrom f shut 0 70).map fun (k : ℕ) =>
    5 * (k : ℚ) + 5 * (shut - f k) / (f (k + 1) - f k)

/-- Crossover price reported by `generateShutdownData` in dashboard.jsx. -/
def generateShutdownCrossover (ammP ureaP gasP maxAmm maxMeth maxUrea maxGas
    days : ℚ) : Option ℚ :=
  crossoverOf (runningProfit ammP ureaP gasP maxAmm maxMeth maxUrea maxGas days)
    (shutdownProfitVal ammP ureaP gasP maxAmm maxUrea days)

end Grid

namespace Hooks

/-- `GT_additional_max` of `BASE_DEFAULTS` in `src/hooks/useLPSolver.ts`. -/
def GT_additional_max : ℚ := 0.676

/-- `applyGTAdditional` of `src/hooks/useLPSolver.ts`: raise the reported flow
by the additional gas-turbine load, capped by the remaining headroom. -/
def applyGTAdditional (mmscfd_base maxGas : ℚ) : ℚ :=
  let headroom := maxGas - mmscfd_base
  if 0 < headroom then mmscfd_base + min headroom GT_additional_max
  else mmscfd_base

/-- The `gas` and `gasBeforeGT` fields produced by `makeResult` in
`src/hooks/useLPSolver.ts` (`none` when the hard-limit check rejects). -/
def makeResultGas (mmscfd_base maxGas : ℚ) : Option (ℚ × ℚ) :=
  let gasAfterGT := applyGTAdditional mmscfd_base maxGas
  if gasAfterGT > maxGas * 1.001 then none
  else some (gasAfterGT, mmscfd_base)

end Hooks

namespace Dash

theorem mkResult_profit (pA pM pU : ℚ) (vc : VC) (d : ℚ) (c : Cand) :
    (mkResult pA pM pU vc d c).profit = candProfit pA pM pU vc c := rfl

theorem eu_not_ok (pA pM pU mg d : ℚ) (vc : VC) (b : Option Result) (c : Cand)
    (h : ¬ candOK mg d c) :
    evaluateAndUpdate pA pM pU mg d vc b c = b := by
  unfold candOK at h
  unfold evaluateAndUpdate
  by_cases h1 : candK10A c + candK10B c < 0 ∨
      candK10A c + candK10B c - K7 * (c.K9A + c.K9B) < -(1/100)
  · rw [if_pos h1]
  · by_cases h2 : (candGas d c).mmscfd > mg + 1/100
    · rw [if_neg h1, if_pos h2]
    · exact absurd ⟨h1, h2⟩ h

theorem eu_ok_none (pA pM pU mg d : ℚ) (vc : VC) (c : Cand)
    (h : candOK mg d c) :
    evaluateAndUpdate pA pM pU mg d vc none c = some (mkResult pA pM pU vc d c) := by
  unfold candOK at h
  unfold evaluateAndUpdate
  rw [if_neg h.1, if_neg h.2]

theorem eu_ok_some (pA pM pU mg d : ℚ) (vc : VC) (b0 : Result) (c : Cand)
    (h : candOK mg d c) :
    evaluateAndUpdate pA pM pU mg d vc (some b0) c =
      if candProfit pA pM pU vc c > b0.profit + 1/1000 then
        some (mkResult pA pM pU vc d c)
      else some b0 := by
  unfold candOK at h
  unfold evaluateAndUpdate
  rw [if_neg h.1, if_neg h.2]

theorem fold_invariant (pA pM pU mg d : ℚ) (vc : VC) (P : Result → Prop)
    (l : List Cand) :
    ∀ b : Option Result,
      (∀ c ∈ l, candOK mg d c → P (mkResult pA pM pU vc d c)) →
      (∀ r, b = some r → P r) →
      ∀ r, l.foldl (evaluateAndUpdate pA pM pU mg d vc) b = some r → P r := by
  induction l with
  | nil => intro b _ hb r hr; exact hb r hr
  | cons c t ih =>
      intro b hl hb r hr
      refine ih _ (fun x hx hok => hl x (List.mem_cons_of_mem _ hx) hok) ?_ r hr
      intro r0 h0
      by_cases hok : candOK mg d c
      · cases b with
        | none =>
            rw [eu_ok_none pA pM pU mg d vc c hok, Option.some.injEq] at h0
            exact h0 ▸ hl c (List.mem_cons_self c t) hok
        | some b0 =>
            rw [eu_ok_some pA pM pU mg d vc b0 c hok] at h0
            by_cases hp : candProfit pA pM pU vc c > b0.profit + 1/1000
            · rw [if_pos hp, Option.some.injEq] at h0
              exact h0 ▸ hl c (List.mem_cons_self c t) hok
            · rw [if_neg hp, Option.some.injEq] at h0
              exact h0 ▸ hb b0 rfl
      · rw [eu_not_ok pA pM pU mg d vc b c hok] at h0
        exact hb r0 h0

theorem step_some (pA pM pU mg d : ℚ) (vc : VC) (b0 : Result) (c : Cand) :
    ∃ r1, evaluateAndUpdate pA pM pU mg d vc (some b0) c = some r1 ∧
      b0.profit ≤ r1.profit := by
  by_cases hok : candOK mg d c
  · rw [eu_ok_some pA pM pU mg d vc b0 c hok]
    by_cases hp : candProfit pA pM pU vc c > b0.profit + 1/1000
    · exact ⟨mkResult pA pM pU vc d c, by rw [if_pos hp], by
        rw [mkResult_profit]; linarith⟩
    · exact ⟨b0, by rw [if_neg hp], le_refl _⟩
  · exact ⟨b0, eu_not_ok pA pM pU mg d vc (some b0) c hok, le_refl _⟩

theorem step_ok (pA pM pU mg d : ℚ) (vc : VC) (b : Option Result) (c : Cand)
    (hok : candOK mg d c) :
    ∃ r1, evaluateAndUpdate pA pM pU mg d vc b c = some r1 ∧
      candProfit pA pM pU vc c - 1/1000 ≤ r1.profit := by
  cases b with
  | none =>
      exact ⟨mkResult pA pM pU vc d c, eu_ok_none pA pM pU mg d vc c hok, by
        rw [mkResult_profit]; linarith⟩
  | some b0 =>
      rw [eu_ok_some pA pM pU mg d vc b0 c hok]
      by_cases hp : candProfit pA pM pU vc c > b0.profit + 1/1000
      · exact ⟨mkResult pA pM pU vc d c, by rw [if_pos hp], by
          rw [mkResult_profit]; linarith⟩
      · exact ⟨b0, by rw [if_neg hp], by push_neg at hp; linarith⟩

theorem fold_mono (pA pM pU mg d : ℚ) (vc : VC) (l : List Cand) :
    ∀ b0 : Result, ∃ r, l.foldl (evaluateAndUpdate pA pM pU mg d vc) (some b0) = some r ∧
      b0.profit ≤ r.profit := by
  induction l with
  | nil => intro b0; exact ⟨b0, rfl, le_refl _⟩
  | cons c t ih =>
      intro b0
      obtain ⟨r1, hr1, hle1⟩ := step_some pA pM pU mg d vc b0 c
      obtain ⟨r, hr, hle⟩ := ih r1
      exact ⟨r, by simpa [List.foldl_cons, hr1] using hr, le_trans hle1 hle⟩

theorem fold_ge (pA pM pU mg d : ℚ) (vc : VC) (l : List Cand) :
    ∀ (b : Option Result) (c : Cand), c ∈ l → candOK mg d c →
      ∃ r, l.foldl (evaluateAndUpdate pA pM pU mg d vc) b = some r ∧
        candProfit pA pM pU vc c - 1/1000 ≤ r.profit := by
  induction l with
  | nil => intro _ _ h; exact absurd h (List.not_mem_nil _)
  | cons c0 t ih =>
      intro b c hc hok
      rcases List.mem_cons.mp hc with h | h
      · subst h
        obtain ⟨r1, hr1, hle1⟩ := step_ok pA pM pU mg d vc b c hok
        obtain ⟨r, hr, hle⟩ := fold_mono pA pM pU mg d vc t r1
        exact ⟨r, by simpa [List.foldl_cons, hr1] using hr, le_trans hle1 hle⟩
      · exact ih _ c h hok

theorem step_none (pA pM pU mg d : ℚ) (vc : VC) (b : Option Result) (c : Cand)
    (h : evaluateAndUpdate pA pM pU mg d vc b c = none) :
    b = none ∧ ¬ candOK mg d c := by
  by_cases hok : candOK mg d c
  · cases b with
    | none =>
        rw [eu_ok_none pA pM pU mg d vc c hok] at h
        exact absurd h (by simp)
    | some b0 =>
        rw [eu_ok_some pA pM pU mg d vc b0 c hok] at h
        by_cases hp : candProfit pA pM pU vc c > b0.profit + 1/1000
        · rw [if_pos hp] at h; exact absurd h (by simp)
        · rw [if_neg hp] at h; exact absurd h (by simp)
  · rw [eu_not_ok pA pM pU mg d vc b c hok] at h
    exact ⟨h, hok⟩

theorem fold_none (pA pM pU mg d : ℚ) (vc : VC) (l : List Cand) :
    ∀ b : Option Result, l.foldl (evaluateAndUpdate pA pM pU mg d vc) b = none →
      b = none ∧ ∀ c ∈ l, ¬ candOK mg d c := by
  induction l with
  | nil => intro b h; exact ⟨h, by simp⟩
  | cons c0 t ih =>
      intro b h
      obtain ⟨h1, h2⟩ := ih _ h
      obtain ⟨hb, hc0⟩ := step_none pA pM pU mg d vc b c0 h1
      refine ⟨hb, fun c hc => ?_⟩
      rcases List.mem_cons.mp hc with h | h
      · exact h ▸ hc0
      · exact h2 c h

theorem fold_none_of_all (pA pM pU mg d : ℚ) (vc : VC) (l : List Cand)
    (h : ∀ c ∈ l, ¬ candOK mg d c) :
    l.foldl (evaluateAndUpdate pA pM pU mg d vc) none = none := by
  induction l with
  | nil => rfl
  | cons c0 t ih =>
      rw [List.foldl_cons, eu_not_ok pA pM pU mg d vc none c0
        (h c0 (List.mem_cons_self c0 t))]
      exact ih fun c hc => h c (List.mem_cons_of_mem _ hc)

theorem candidatesA_props (pA gp mAmm mMeth mUrea mg d : ℚ) :
    ∀ c ∈ candidatesA pA gp mAmm mMeth mUrea mg d,
      c.label = CaseLabel.A ∧ c.D5B = 0 ∧ c.K9B = 0 ∧ c.K4B = 0 ∧
      calcR13 d ≤ c.D5A ∧ c.D5A ≤ mMeth * d := by
  intro c hc
  unfold candidatesA at hc
  dsimp only at hc
  split at hc
  case isFalse => exact absurd hc (List.not_mem_nil _)
  case isTrue h =>
    simp only [List.mem_append, List.mem_flatMap, List.mem_cons,
      List.not_mem_nil, or_false] at hc
    rcases hc with ⟨D5A, hD5A, E5A, _, K4A, _, hc⟩ | ⟨D5A, hD5A, E5A, _, hc⟩ <;>
      split_ifs at hc <;>
      simp only [List.not_mem_nil, List.mem_singleton] at hc <;>
      subst hc <;>
      rcases hD5A with rfl | rfl <;>
      exact ⟨rfl, rfl, rfl, rfl, by first | exact le_refl _ | exact h,
        by first | exact le_refl _ | exact h⟩

theorem candidatesB_props (pA pU gp mAmm mMeth mUrea mg d : ℚ) :
    ∀ c ∈ candidatesB pA pU gp mAmm mMeth mUrea mg d,
      (c.label = CaseLabel.B1 ∨ c.label = CaseLabel.B2) ∧
      c.D5A = 0 ∧ c.K9A = 0 ∧ c.K4A = 0 ∧
      (c.D5B = 1 ∨ c.D5B = min (max 1 (calcR13 d - 1)) (mMeth * d)) := by
  intro c hc
  unfold candidatesB at hc
  dsimp only at hc
  simp only [List.mem_append, List.mem_flatMap, List.mem_cons,
    List.not_mem_nil, or_false] at hc
  rcases hc with ((⟨D5B, hD5B, E5B, _, K4B, _, hc⟩ |
    ⟨D5B, hD5B, E5B, _, hc⟩) |
    ⟨D5B, hD5B, E5B, _, hc⟩) |
    ⟨D5B, hD5B, hc⟩
  · split_ifs at hc <;>
      simp only [List.not_mem_nil, List.mem_singleton] at hc <;>
      subst hc <;>
      exact ⟨Or.inl rfl, rfl, rfl, rfl, hD5B⟩
  · split_ifs at hc <;>
      simp only [List.not_mem_nil, List.mem_singleton] at hc <;>
      subst hc <;>
      exact ⟨Or.inl rfl, rfl, rfl, rfl, hD5B⟩
  · rcases hc with ⟨K4B, _, hc⟩ | hc <;>
      split_ifs at hc <;>
      simp only [List.not_mem_nil, List.mem_singleton] at hc <;>
      subst hc <;>
      exact ⟨by first | exact Or.inl rfl | exact Or.inr rfl | (split_ifs <;> simp), rfl, rfl, rfl, hD5B⟩
  · split_ifs at hc <;>
      simp only [List.not_mem_nil, List.mem_cons, List.mem_singleton,
        or_false] at hc <;>
      (first
        | obtain rfl | rfl := hc
        | obtain rfl := hc) <;>
      exact ⟨by first | exact Or.inl rfl | exact Or.inr rfl, rfl, rfl, rfl, hD5B⟩

theorem candidatesList_D5 (pA pU gp mAmm mMeth mUrea mg d : ℚ)
    (hd : 0 ≤ d) (hm : 0 ≤ mMeth * d) :
    ∀ c ∈ candidatesList pA pU gp mAmm mMeth mUrea mg d, 0 ≤ c.D5A + c.D5B := by
  intro c hc
  rcases List.mem_append.mp hc with h | h
  · obtain ⟨_, hD5B, _, _, hlo, _⟩ := candidatesA_props pA gp mAmm mMeth mUrea mg d c h
    have hR : (0:ℚ) ≤ calcR13 d := by
      unfold calcR13 R13_DAILY
      positivity
    rw [hD5B]
    linarith
  · obtain ⟨_, hD5A, _, _, hD5B⟩ := candidatesB_props pA pU gp mAmm mMeth mUrea mg d c h
    rw [hD5A]
    rcases hD5B with h1 | h1 <;> rw [h1]
    · norm_num
    · simp only [zero_add, le_min_iff]
      exact ⟨le_trans (by norm_num) (le_max_left 1 _), hm⟩

theorem mkResult_caseLabel (pA pM pU : ℚ) (vc : VC) (d : ℚ) (c : Cand) :
    (mkResult pA pM pU vc d c).caseLabel = c.label := rfl

theorem mkResult_K10 (pA pM pU : ℚ) (vc : VC) (d : ℚ) (c : Cand) :
    (mkResult pA pM pU vc d c).K10 = candK10A c + candK10B c := rfl

theorem mkResult_K9 (pA pM pU : ℚ) (vc : VC) (d : ℚ) (c : Cand) :
    (mkResult pA pM pU vc d c).K9 = c.K9A + c.K9B := rfl

theorem mkResult_D5 (pA pM pU : ℚ) (vc : VC) (d : ℚ) (c : Cand) :
    (mkResult pA pM pU vc d c).D5 = c.D5A + c.D5B := rfl

theorem mkResult_K11 (pA pM pU : ℚ) (vc : VC) (d : ℚ) (c : Cand) :
    (mkResult pA pM pU vc d c).K11 =
      max 0 (candK10A c + candK10B c - K7 * (c.K9A + c.K9B)) := rfl

theorem mkResult_gasMMSCFD (pA pM pU : ℚ) (vc : VC) (d : ℚ) (c : Cand) :
    (mkResult pA pM pU vc d c).gasMMSCFD = (candGas d c).mmscfd := rfl

theorem infeasibleResult_caseLabel (gp : ℚ) :
    (infeasibleResult gp).caseLabel = CaseLabel.INFEASIBLE := rfl

/-- Characterization of `solveLP`: either no candidate passes validation and
the explicit infeasible record is returned, or the result is the stored record
of some validated enumerated candidate. -/
theorem solveLP_spec (pA pM pU gp mAmm mMeth mUrea mg d : ℚ) :
    (solveLP pA pM pU gp mAmm mMeth mUrea mg d = infeasibleResult gp ∧
      ∀ c ∈ candidatesList pA pU gp mAmm mMeth mUrea mg d, ¬ candOK mg d c) ∨
    (∃ c ∈ candidatesList pA pU gp mAmm mMeth mUrea mg d, candOK mg d c ∧
      solveLP pA pM pU gp mAmm mMeth mUrea mg d =
        mkResult pA pM pU (calcVC gp) d c) := by
  unfold solveLP
  dsimp only
  cases hfold : (candidatesList pA pU gp mAmm mMeth mUrea mg d).foldl
      (evaluateAndUpdate pA pM pU mg d (calcVC gp)) none with
  | none =>
      left
      exact ⟨rfl, (fold_none pA pM pU mg d (calcVC gp) _ none hfold).2⟩
  | some r =>
      right
      obtain ⟨c, hc, hok, hr⟩ := fold_invariant pA pM pU mg d (calcVC gp)
        (fun r => ∃ c ∈ candidatesList pA pU gp mAmm mMeth mUrea mg d,
          candOK mg d c ∧ r = mkResult pA pM pU (calcVC gp) d c)
        (candidatesList pA pU gp mAmm mMeth mUrea mg d) none
        (fun c hc hok => ⟨c, hc, hok, rfl⟩) (by simp) r hfold
      exact ⟨c, hc, hok, hr⟩

/-- The reported profit is within the update threshold `0.001` of every
validated candidate's profit. -/
theorem solveLP_ge (pA pM pU gp mAmm mMeth mUrea mg d : ℚ) :
    ∀ c ∈ candidatesList pA pU gp mAmm mMeth mUrea mg d, candOK mg d c →
      candProfit pA pM pU (calcVC gp) c ≤
        (solveLP pA pM pU gp mAmm mMeth mUrea mg d).profit + 1/1000 := by
  intro c hc hok
  obtain ⟨r, hr, hle⟩ := fold_ge pA pM pU mg d (calcVC gp) _ none c hc hok
  unfold solveLP
  dsimp only
  rw [hr]
  show candProfit pA pM pU (calcVC gp) c ≤ r.profit + 1/1000
  linarith

/-- Aggregating the per-case splits does not change the consumption model. -/
theorem calcGas_aggregate (a b x y u v days : ℚ) :
    (calcGas (a + b) 0 (x + y) 0 (u + v) 0 days).mmscfd =
      (calcGas a b x y u v days).mmscfd := by
  unfold calcGas
  dsimp only
  ring

theorem mkResult_vcAmm (pA pM pU : ℚ) (vc : VC) (d : ℚ) (c : Cand) :
    (mkResult pA pM pU vc d c).vcAmm =
      if c.label = CaseLabel.A then vc.ammA else vc.ammB := rfl

theorem mkResult_vcMeth (pA pM pU : ℚ) (vc : VC) (d : ℚ) (c : Cand) :
    (mkResult pA pM pU vc d c).vcMeth = vc.meth := rfl

theorem mkResult_vcUrea (pA pM pU : ℚ) (vc : VC) (d : ℚ) (c : Cand) :
    (mkResult pA pM pU vc d c).vcUrea =
      if c.label = CaseLabel.A then vc.ureaA else vc.ureaB := rfl

theorem mkResult_objective (pA pM pU : ℚ) (vc : VC) (d : ℚ) (c : Cand)
    (hzero : (c.label = CaseLabel.A ∧ c.D5B = 0 ∧ c.K9B = 0) ∨
      ((c.label = CaseLabel.B1 ∨ c.label = CaseLabel.B2) ∧ c.D5A = 0 ∧ c.K9A = 0)) :
    (mkResult pA pM pU vc d c).profit =
      (pA - (mkResult pA pM pU vc d c).vcAmm) *
          ((mkResult pA pM pU vc d c).K10 - K7 * (mkResult pA pM pU vc d c).K9) +
        (pM - (mkResult pA pM pU vc d c).vcMeth) * (mkResult pA pM pU vc d c).D5 +
        (pU - (mkResult pA pM pU vc d c).vcUrea) * (mkResult pA pM pU vc d c).K9 -
        FC_TOTAL := by
  rw [mkResult_profit, mkResult_K10, mkResult_K9, mkResult_D5, mkResult_vcAmm,
    mkResult_vcMeth, mkResult_vcUrea]
  unfold candProfit calcProfit candK10A candK10B
  dsimp only
  rcases hzero with ⟨hl, h1, h2⟩ | ⟨hl, h1, h2⟩
  · rw [if_pos hl, if_pos hl, if_pos hl, if_pos hl, h1, h2]
    ring
  · have hlA : ¬ c.label = CaseLabel.A := by
      rcases hl with h | h <;> rw [h] <;> intro hcontra <;>
        exact CaseLabel.noConfusion hcontra
    rw [if_neg hlA, if_neg hlA, if_neg hlA, if_neg hlA, h1, h2]
    ring

/-- C1 (amended): whenever `solveLP` returns a non-infeasible Solution, its
profit equals the objective `Σ (price − unitCost) × volume − fixedCostTotal`
evaluated at the returned volumes, and the reported profit is within the 0.001
update threshold of every validated enumerated candidate; the claimed equality
with the exact maximum of the case's feasible region does not hold. -/
theorem C1_amended (pA pM pU gp mAmm mMeth mUrea mg d : ℚ)
    (h : (solveLP pA pM pU gp mAmm mMeth mUrea mg d).caseLabel ≠ CaseLabel.INFEASIBLE) :
    ((solveLP pA pM pU gp mAmm mMeth mUrea mg d).profit =
      (pA - (solveLP pA pM pU gp mAmm mMeth mUrea mg d).vcAmm) *
          ((solveLP pA pM pU gp mAmm mMeth mUrea mg d).K10 -
            K7 * (solveLP pA pM pU gp mAmm mMeth mUrea mg d).K9) +
        (pM - (solveLP pA pM pU gp mAmm mMeth mUrea mg d).vcMeth) *
          (solveLP pA pM pU gp mAmm mMeth mUrea mg d).D5 +
        (pU - (solveLP pA pM pU gp mAmm mMeth mUrea mg d).vcUrea) *
          (solveLP pA pM pU gp mAmm mMeth mUrea mg d).K9 - FC_TOTAL) ∧
    ∀ c ∈ candidatesList pA pU gp mAmm mMeth mUrea mg d, candOK mg d c →
      candProfit pA pM pU (calcVC gp) c ≤
        (solveLP pA pM pU gp mAmm mMeth mUrea mg d).profit + 1/1000 := by
  rcases solveLP_spec pA pM pU gp mAmm mMeth mUrea mg d with ⟨he, _⟩ | ⟨c, hc, _, he⟩
  · rw [he, infeasibleResult_caseLabel] at h
    exact absurd rfl h
  · refine ⟨?_, solveLP_ge pA pM pU gp mAmm mMeth mUrea mg d⟩
    rw [he]
    refine mkResult_objective pA pM pU (calcVC gp) d c ?_
    rcases List.mem_append.mp hc with hmem | hmem
    · obtain ⟨hl, h1, h2, _⟩ := candidatesA_props pA gp mAmm mMeth mUrea mg d c hmem
      exact Or.inl ⟨hl, h1, h2⟩
    · obtain ⟨hl, h1, h2, _⟩ := candidatesB_props pA pU gp mAmm mMeth mUrea mg d c hmem
      exact Or.inr ⟨hl, h1, h2⟩

/-- C2: for every input on which the optimizer returns a non-infeasible
Solution, the consumption model's flow rate at the returned production triple
is at most the fuel ceiling plus the `0.01` MMSCFD tolerance. -/
theorem C2_fuel_tolerance (pA pM pU gp mAmm mMeth mUrea mg d : ℚ)
    (h : (solveLP pA pM pU gp mAmm mMeth mUrea mg d).caseLabel ≠ CaseLabel.INFEASIBLE) :
    (calcGas (solveLP pA pM pU gp mAmm mMeth mUrea mg d).K10 0
        (solveLP pA pM pU gp mAmm mMeth mUrea mg d).D5 0
        (solveLP pA pM pU gp mAmm mMeth mUrea mg d).K9 0 d).mmscfd ≤ mg + 1/100 ∧
    (solveLP pA pM pU gp mAmm mMeth mUrea mg d).gasMMSCFD =
      (calcGas (solveLP pA pM pU gp mAmm mMeth mUrea mg d).K10 0
        (solveLP pA pM pU gp mAmm mMeth mUrea mg d).D5 0
        (solveLP pA pM pU gp mAmm mMeth mUrea mg d).K9 0 d).mmscfd := by
  rcases solveLP_spec pA pM pU gp mAmm mMeth mUrea mg d with ⟨he, _⟩ | ⟨c, hc, hok, he⟩
  · rw [he, infeasibleResult_caseLabel] at h
    exact absurd rfl h
  · have hagg : (calcGas (solveLP pA pM pU gp mAmm mMeth mUrea mg d).K10 0
        (solveLP pA pM pU gp mAmm mMeth mUrea mg d).D5 0
        (solveLP pA pM pU gp mAmm mMeth mUrea mg d).K9 0 d).mmscfd =
        (candGas d c).mmscfd := by
      rw [he, mkResult_K10, mkResult_D5, mkResult_K9]
      exact calcGas_aggregate (candK10A c) (candK10B c) c.D5A c.D5B c.K9A c.K9B d
    have hgas : (candGas d c).mmscfd ≤ mg + 1/100 := le_of_not_lt hok.2
    refine ⟨by rw [hagg]; exact hgas, ?_⟩
    rw [he, mkResult_gasMMSCFD, mkResult_K10, mkResult_D5, mkResult_K9]
    exact (calcGas_aggregate (candK10A c) (candK10B c) c.D5A c.D5B c.K9A c.K9B d).symm

/-- C3 (amended): with the period at least one day, every Case-A Solution has
methanol at least `R13_DAILY · days` — the fixed per-day threshold constant,
not the fraction of the configured methanol capacity — and every Case-B
Solution has methanol strictly below it. -/
theorem C3_amended (pA pM pU gp mAmm mMeth mUrea mg d : ℚ) (hd : 1 ≤ d) :
    ((solveLP pA pM pU gp mAmm mMeth mUrea mg d).caseLabel = CaseLabel.A →
      calcR13 d ≤ (solveLP pA pM pU gp mAmm mMeth mUrea mg d).D5) ∧
    (((solveLP pA pM pU gp mAmm mMeth mUrea mg d).caseLabel = CaseLabel.B1 ∨
        (solveLP pA pM pU gp mAmm mMeth mUrea mg d).caseLabel = CaseLabel.B2) →
      (solveLP pA pM pU gp mAmm mMeth mUrea mg d).D5 < calcR13 d) := by
  have hR2 : (2:ℚ) ≤ calcR13 d := by
    unfold calcR13 R13_DAILY
    nlinarith
  rcases solveLP_spec pA pM pU gp mAmm mMeth mUrea mg d with ⟨he, _⟩ | ⟨c, hc, _, he⟩
  · rw [he]
    constructor
    · intro hl
      exact absurd hl (by rw [infeasibleResult_caseLabel]; intro hco; exact CaseLabel.noConfusion hco)
    · intro hl
      rcases hl with hl | hl <;>
        rw [infeasibleResult_caseLabel] at hl <;> exact absurd hl (by intro hco; exact CaseLabel.noConfusion hco)
  · rw [he, mkResult_caseLabel, mkResult_D5]
    rcases List.mem_append.mp hc with hmem | hmem
    · obtain ⟨hl, h1, _, _, hlo, _⟩ := candidatesA_props pA gp mAmm mMeth mUrea mg d c hmem
      constructor
      · intro _
        rw [h1]
        linarith
      · intro hcontra
        rw [hl] at hcontra
        rcases hcontra with hco | hco <;> exact CaseLabel.noConfusion hco
    · obtain ⟨hl, h1, _, _, hD5B⟩ := candidatesB_props pA pU gp mAmm mMeth mUrea mg d c hmem
      constructor
      · intro hcontra
        rcases hl with hb | hb <;> rw [hb] at hcontra <;> exact CaseLabel.noConfusion hcontra
      · intro _
        rw [h1, zero_add]
        rcases hD5B with h2 | h2 <;> rw [h2]
        · linarith
        · have hmax : max 1 (calcR13 d - 1) = calcR13 d - 1 :=
            max_eq_right (by linarith)
          calc min (max 1 (calcR13 d - 1)) (mMeth * d) ≤ max 1 (calcR13 d - 1) :=
                min_le_left _ _
            _ = calcR13 d - 1 := hmax
            _ < calcR13 d := by linarith

/-- C4 (amended): the saleable-ammonia field of every non-infeasible Solution
is the clamp `max 0 (K10 − K7·K9)` of the stoichiometric quantity, and the
unclamped quantity is at least `−0.01`; the plain equality
`K11 = K10 − K7·K9` fails when the tolerated quantity is negative. -/
theorem C4_amended (pA pM pU gp mAmm mMeth mUrea mg d : ℚ)
    (h : (solveLP pA pM pU gp mAmm mMeth mUrea mg d).caseLabel ≠ CaseLabel.INFEASIBLE) :
    (solveLP pA pM pU gp mAmm mMeth mUrea mg d).K11 =
      max 0 ((solveLP pA pM pU gp mAmm mMeth mUrea mg d).K10 -
        K7 * (solveLP pA pM pU gp mAmm mMeth mUrea mg d).K9) ∧
    -(1/100) ≤ (solveLP pA pM pU gp mAmm mMeth mUrea mg d).K10 -
      K7 * (solveLP pA pM pU gp mAmm mMeth mUrea mg d).K9 := by
  rcases solveLP_spec pA pM pU gp mAmm mMeth mUrea mg d with ⟨he, _⟩ | ⟨c, _, hok, he⟩
  · rw [he, infeasibleResult_caseLabel] at h
    exact absurd rfl h
  · have hnn := hok.1
    push_neg at hnn
    rw [he, mkResult_K11, mkResult_K10, mkResult_K9]
    exact ⟨rfl, hnn.2⟩

/-- C5 (amended): the optimizer is a total function; it either returns the
explicit infeasible Solution (zero volumes, zero profit, INFEASIBLE label) or
a Solution passing the tolerance checks.  Inputs with empty exact feasible
regions may still yield a non-infeasible Solution within tolerance. -/
theorem C5_amended (pA pM pU gp mAmm mMeth mUrea mg d : ℚ) :
    solveLP pA pM pU gp mAmm mMeth mUrea mg d = infeasibleResult gp ∨
    (0 ≤ (solveLP pA pM pU gp mAmm mMeth mUrea mg d).K10 ∧
      -(1/100) ≤ (solveLP pA pM pU gp mAmm mMeth mUrea mg d).K10 -
        K7 * (solveLP pA pM pU gp mAmm mMeth mUrea mg d).K9 ∧
      (solveLP pA pM pU gp mAmm mMeth mUrea mg d).gasMMSCFD ≤ mg + 1/100) := by
  rcases solveLP_spec pA pM pU gp mAmm mMeth mUrea mg d with ⟨he, _⟩ | ⟨c, _, hok, he⟩
  · exact Or.inl he
  · right
    have hnn := hok.1
    push_neg at hnn
    have hgas : (candGas d c).mmscfd ≤ mg + 1/100 := le_of_not_lt hok.2
    rw [he, mkResult_K10, mkResult_K9, mkResult_gasMMSCFD]
    exact ⟨hnn.1, hnn.2, hgas⟩

/-- C8 (amended): raising the methanol price by `Δ ≥ 0` (candidate enumeration
never reads the methanol price) lowers the reported profit by at most the
`0.001` update threshold; strict monotonicity as claimed fails, and an
ammonia-price increase can strictly lower the reported profit. -/
theorem C8_amended (pA pM pU gp mAmm mMeth mUrea mg d Δ : ℚ)
    (hΔ : 0 ≤ Δ) (hd : 0 ≤ d) (hm : 0 ≤ mMeth * d) :
    (solveLP pA pM pU gp mAmm mMeth mUrea mg d).profit ≤
      (solveLP pA (pM + Δ) pU gp mAmm mMeth mUrea mg d).profit + 1/1000 := by
  rcases solveLP_spec pA pM pU gp mAmm mMeth mUrea mg d with ⟨he, hall⟩ | ⟨c, hc, hok, he⟩
  · rcases solveLP_spec pA (pM + Δ) pU gp mAmm mMeth mUrea mg d with
      ⟨he2, _⟩ | ⟨c2, hc2, hok2, _⟩
    · rw [he, he2]
      show (0:ℚ) ≤ 0 + 1/1000
      norm_num
    · exact absurd hok2 (hall c2 hc2)
  · have hge := solveLP_ge pA (pM + Δ) pU gp mAmm mMeth mUrea mg d c hc hok
    have hshift : candProfit pA (pM + Δ) pU (calcVC gp) c =
        candProfit pA pM pU (calcVC gp) c + Δ * (c.D5A + c.D5B) := by
      unfold candProfit calcProfit
      dsimp only
      ring
    have hD5 := candidatesList_D5 pA pU gp mAmm mMeth mUrea mg d hd hm c hc
    have h1 : (solveLP pA pM pU gp mAmm mMeth mUrea mg d).profit =
        candProfit pA pM pU (calcVC gp) c := by
      rw [he, mkResult_profit]
    nlinarith [mul_nonneg hΔ hD5]

end Dash

/-- C1 (counterexample): at ammonia price 400, methanol price 80, urea price 0,
gas price 5, capacities 4160.19103728/800/1 MT per day, fuel ceiling 10⁶ and a
one-day period, the returned Case-A Solution's profit is strictly below the
objective at the feasible Case-A point (methanol 800, throughput 0.565,
urea 0), so it does not attain the maximum over the case's feasible region. -/
theorem C1_counterexample :
    Dash.caseAFeasible 4160.19103728 800 1 1000000 1 800 0.565 0 ∧
    (Dash.solveLP 400 80 0 5 4160.19103728 800 1 1000000 1).caseLabel =
      Dash.CaseLabel.A ∧
    (Dash.solveLP 400 80 0 5 4160.19103728 800 1 1000000 1).profit <
      Dash.objectiveA 400 80 0 5 800 0.565 0 := by
  with_unfolding_all decide

/-- C1 (witness): the amended profit-equals-objective-at-returned-volumes
conclusion evaluated at the concrete input above. -/
theorem C1_witness :
    (Dash.solveLP 400 80 0 5 4160.19103728 800 1 1000000 1).caseLabel ≠
      Dash.CaseLabel.INFEASIBLE ∧
    (Dash.solveLP 400 80 0 5 4160.19103728 800 1 1000000 1).profit =
      (400 - (Dash.solveLP 400 80 0 5 4160.19103728 800 1 1000000 1).vcAmm) *
          ((Dash.solveLP 400 80 0 5 4160.19103728 800 1 1000000 1).K10 -
            Dash.K7 * (Dash.solveLP 400 80 0 5 4160.19103728 800 1 1000000 1).K9) +
        (80 - (Dash.solveLP 400 80 0 5 4160.19103728 800 1 1000000 1).vcMeth) *
          (Dash.solveLP 400 80 0 5 4160.19103728 800 1 1000000 1).D5 +
        (0 - (Dash.solveLP 400 80 0 5 4160.19103728 800 1 1000000 1).vcUrea) *
          (Dash.solveLP 400 80 0 5 4160.19103728 800 1 1000000 1).K9 -
        Dash.FC_TOTAL :=
  ⟨by with_unfolding_all decide,
    (Dash.C1_amended 400 80 0 5 4160.19103728 800 1 1000000 1
      (by with_unfolding_all decide)).1⟩

/-- C2 (witness): the fuel-ceiling tolerance conclusion evaluated at a
concrete non-infeasible input. -/
theorem C2_witness :
    (Dash.solveLP 400 80 0 5 4160.19103728 800 1 1000000 1).caseLabel ≠
      Dash.CaseLabel.INFEASIBLE ∧
    ((Dash.calcGas (Dash.solveLP 400 80 0 5 4160.19103728 800 1 1000000 1).K10 0
        (Dash.solveLP 400 80 0 5 4160.19103728 800 1 1000000 1).D5 0
        (Dash.solveLP 400 80 0 5 4160.19103728 800 1 1000000 1).K9 0 1).mmscfd ≤
      1000000 + 1/100 ∧
    (Dash.solveLP 400 80 0 5 4160.19103728 800 1 1000000 1).gasMMSCFD =
      (Dash.calcGas (Dash.solveLP 400 80 0 5 4160.19103728 800 1 1000000 1).K10 0
        (Dash.solveLP 400 80 0 5 4160.19103728 800 1 1000000 1).D5 0
        (Dash.solveLP 400 80 0 5 4160.19103728 800 1 1000000 1).K9 0 1).mmscfd) :=
  ⟨by with_unfolding_all decide,
    Dash.C2_fuel_tolerance 400 80 0 5 4160.19103728 800 1 1000000 1
      (by with_unfolding_all decide)⟩

/-- C3 (counterexample): with methanol capacity 1250 MT/D and a one-day
period the optimizer returns a Case-A Solution whose methanol output
(739.7285… = `R13_DAILY`) is strictly below the claimed threshold
`0.6 × capacity × period = 750`. -/
theorem C3_counterexample :
    (Dash.solveLP 400 0 400 5 4200 1250 2150 1000000 1).caseLabel =
      Dash.CaseLabel.A ∧
    (Dash.solveLP 400 0 400 5 4200 1250 2150 1000000 1).D5 < 0.6 * 1250 * 1 := by
  with_unfolding_all decide

/-- C3 (witness): the amended fixed-threshold partition conclusion evaluated
at a concrete input with a one-day period. -/
theorem C3_witness :
    (1:ℚ) ≤ 1 ∧
    (((Dash.solveLP 400 80 0 5 4160.19103728 800 1 1000000 1).caseLabel =
        Dash.CaseLabel.A →
      Dash.calcR13 1 ≤ (Dash.solveLP 400 80 0 5 4160.19103728 800 1 1000000 1).D5) ∧
    (((Dash.solveLP 400 80 0 5 4160.19103728 800 1 1000000 1).caseLabel =
        Dash.CaseLabel.B1 ∨
      (Dash.solveLP 400 80 0 5 4160.19103728 800 1 1000000 1).caseLabel =
        Dash.CaseLabel.B2) →
      (Dash.solveLP 400 80 0 5 4160.19103728 800 1 1000000 1).D5 <
        Dash.calcR13 1)) :=
  ⟨le_refl 1, Dash.C3_amended 400 80 0 5 4160.19103728 800 1 1000000 1 (le_refl 1)⟩

/-- C4 (counterexample): at a concrete input the returned Solution stores the
clamped saleable ammonia `K11 = 0` while `K10 − K7·K9 = −0.005`, so the
claimed equality `K11 = K10 − K7·K9` fails on a returned Solution. -/
theorem C4_counterexample :
    (Dash.solveLP 400 80 0 5 4160.19103728 800 1 1000000 1).caseLabel ≠
      Dash.CaseLabel.INFEASIBLE ∧
    (Dash.solveLP 400 80 0 5 4160.19103728 800 1 1000000 1).K11 ≠
      (Dash.solveLP 400 80 0 5 4160.19103728 800 1 1000000 1).K10 -
        Dash.K7 * (Dash.solveLP 400 80 0 5 4160.19103728 800 1 1000000 1).K9 := by
  with_unfolding_all decide

/-- C4 (witness): the amended clamp-form invariant evaluated at the concrete
input above. -/
theorem C4_witness :
    (Dash.solveLP 400 80 0 5 4160.19103728 800 1 1000000 1).caseLabel ≠
      Dash.CaseLabel.INFEASIBLE ∧
    ((Dash.solveLP 400 80 0 5 4160.19103728 800 1 1000000 1).K11 =
      max 0 ((Dash.solveLP 400 80 0 5 4160.19103728 800 1 1000000 1).K10 -
        Dash.K7 * (Dash.solveLP 400 80 0 5 4160.19103728 800 1 1000000 1).K9) ∧
    -(1/100) ≤ (Dash.solveLP 400 80 0 5 4160.19103728 800 1 1000000 1).K10 -
      Dash.K7 * (Dash.solveLP 400 80 0 5 4160.19103728 800 1 1000000 1).K9) :=
  ⟨by with_unfolding_all decide,
    Dash.C4_amended 400 80 0 5 4160.19103728 800 1 1000000 1
      (by with_unfolding_all decide)⟩

/-- C5 (counterexample): a gas-starved input (fuel ceiling 9/1000 MMSCFD below
the only enumerated vertex's consumption) on which both cases' exact feasible
regions are empty, yet the optimizer accepts the vertex within its 0.01
tolerance and returns a non-infeasible Case-A Solution. -/
theorem C5_counterexample :
    (∀ D5 K10 K9 : ℚ,
      ¬ Dash.caseAFeasible Dash.W5maxAmm Dash.R13_DAILY (1/31) Dash.W5maxGas 31
          D5 K10 K9) ∧
    (∀ D5 K10 K9 : ℚ,
      ¬ Dash.caseBFeasible Dash.W5maxAmm Dash.R13_DAILY (1/31) Dash.W5maxGas 31
          D5 K10 K9) ∧
    (Dash.solveLP 400 80 400 5 Dash.W5maxAmm Dash.R13_DAILY (1/31) Dash.W5maxGas
        31).caseLabel ≠ Dash.CaseLabel.INFEASIBLE := by
  refine ⟨?_, ?_, by with_unfolding_all decide⟩
  · intro D5 K10 K9 h
    unfold Dash.caseAFeasible at h
    obtain ⟨-, h1, h2, h4, -, -, h7, -, -, h9⟩ := h
    have hD5 : D5 = Dash.R13_DAILY * 31 := by
      unfold Dash.calcR13 at h1
      linarith
    rw [hD5] at h9
    unfold Dash.W5maxGas Dash.calcGas at h9
    dsimp only at h9
    unfold Dash.SGC_AMM Dash.SGC_METH Dash.B_AMM Dash.B_METH Dash.B_UREA
      Dash.GT Dash.FL Dash.GCV Dash.R13_DAILY at h9
    linarith
  · intro D5 K10 K9 h
    unfold Dash.caseBFeasible at h
    obtain ⟨-, -, -, h4, -, h6, -, -, -, -, -⟩ := h
    unfold Dash.W5maxAmm Dash.CAPA Dash.CAPB Dash.ALPHA Dash.R13_DAILY at h6
    linarith

/-- C8 (counterexample): raising the ammonia price from 400 to 1400 with all
other inputs fixed strictly lowers the reported profit (the only validated
candidate has negative tolerated saleable ammonia), refuting the claimed
monotonicity. -/
theorem C8_counterexample :
    (Dash.solveLP 1400 80 0 5 4160.19103728 800 1 1000000 1).profit <
      (Dash.solveLP 400 80 0 5 4160.19103728 800 1 1000000 1).profit := by
  with_unfolding_all decide

/-- C8 (witness): the amended methanol-price near-monotonicity conclusion
evaluated at a concrete input with `Δ = 10`. -/
theorem C8_witness :
    (0:ℚ) ≤ 10 ∧ (0:ℚ) ≤ 1 ∧ (0:ℚ) ≤ 800 * 1 ∧
    (Dash.solveLP 400 80 0 5 4160.19103728 800 1 1000000 1).profit ≤
      (Dash.solveLP 400 (80 + 10) 0 5 4160.19103728 800 1 1000000 1).profit +
        1/1000 :=
  ⟨by norm_num, by norm_num, by norm_num,
    Dash.C8_amended 400 80 0 5 4160.19103728 800 1 1000000 1 10
      (by norm_num) (by norm_num) (by norm_num)⟩

namespace Grid

/-- The B-min candidate's profit decomposes as the constant shutdown profit
plus the methanol contribution of its 1-MT lower bound. -/
theorem C6_amended (ammP methP ureaP gasP maxAmm maxUrea maxGas days : ℚ)
    (r : Result)
    (h : bMinResult ammP methP ureaP gasP maxAmm maxUrea maxGas days = some r) :
    r.profit = shutdownProfitVal ammP ureaP gasP maxAmm maxUrea days +
      (methP - (calcVC gasP).meth) * 1 := by
  unfold bMinResult at h
  dsimp only at h
  split_ifs at h
  rw [Option.some.injEq] at h
  subst h
  unfold shutdownProfitVal
  dsimp only
  ring

theorem firstCrossFrom_none_of (f : ℕ → ℚ) (s : ℚ) :
    ∀ n k, (∀ j, k ≤ j → j < k + n → ¬(f j ≤ s ∧ s < f (j + 1))) →
      firstCrossFrom f s k n = none := by
  intro n
  induction n with
  | zero => intro k _; rfl
  | succ m ih =>
      intro k h
      unfold firstCrossFrom
      rw [if_neg (h k (le_refl k) (by omega))]
      exact ih (k + 1) fun j hj1 hj2 => h j (by omega) (by omega)

theorem firstCrossFrom_some_spec (f : ℕ → ℚ) (s : ℚ) :
    ∀ n k j, firstCrossFrom f s k n = some j →
      k ≤ j ∧ j < k + n ∧ f j ≤ s ∧ s < f (j + 1) ∧
        ∀ i, k ≤ i → i < j → ¬(f i ≤ s ∧ s < f (i + 1)) := by
  intro n
  induction n with
  | zero => intro k j h; exact absurd h (by intro hco; exact Option.noConfusion hco)
  | succ m ih =>
      intro k j h
      unfold firstCrossFrom at h
      by_cases hcond : f k ≤ s ∧ s < f (k + 1)
      · rw [if_pos hcond, Option.some.injEq] at h
        subst h
        exact ⟨le_refl _, by omega, hcond.1, hcond.2,
          fun i h1 h2 => absurd h2 (by omega)⟩
      · rw [if_neg hcond] at h
        obtain ⟨h1, h2, h3, h4, h5⟩ := ih (k + 1) j h
        refine ⟨by omega, by omega, h3, h4, fun i hi1 hi2 => ?_⟩
        rcases Nat.eq_or_lt_of_le hi1 with heq | hlt
        · exact heq ▸ hcond
        · exact h5 i (by omega) hi2

end Grid

/-- C6 (counterexample): at ammonia price 325, methanol price 80, urea price
400, gas price 5, capacities 1320/2150, fuel ceiling 128 and 31 days, the
B-min (methanol at its lower bound 1) profit exists and differs from the
shutdown sweep's constant shutdown profit, refuting the claimed equality. -/
theorem C6_counterexample :
    (Grid.bMinResult 325 80 400 5 1320 2150 128 31).map Grid.Result.profit ≠
      none ∧
    (Grid.bMinResult 325 80 400 5 1320 2150 128 31).map Grid.Result.profit ≠
      some (Grid.shutdownProfitVal 325 400 5 1320 2150 31) := by
  with_unfolding_all decide

/-- C6 (witness): the amended decomposition evaluated at the concrete input
above. -/
theorem C6_witness :
    (Grid.bMinResult 325 80 400 5 1320 2150 128 31).map Grid.Result.profit =
      some (Grid.shutdownProfitVal 325 400 5 1320 2150 31 +
        (80 - (Grid.calcVC 5).meth) * 1) := by
  cases hb : Grid.bMinResult 325 80 400 5 1320 2150 128 31 with
  | none => exact absurd hb (by with_unfolding_all decide)
  | some r =>
      rw [Option.map_some', Option.some.injEq]
      exact Grid.C6_amended 325 80 400 5 1320 2150 128 31 r hb

/-- C7: the shutdown sweep reports no crossover when the running profit stays
strictly above (or never exceeds) the shutdown profit across the whole grid,
and any reported crossover is the linear interpolation between the first
adjacent grid pair whose left point has running profit ≤ shutdown profit and
whose right point exceeds it. -/
theorem C7_crossover (ammP ureaP gasP maxAmm maxMeth maxUrea maxGas days : ℚ) :
    ((∀ k : ℕ, k ≤ 70 →
        Grid.shutdownProfitVal ammP ureaP gasP maxAmm maxUrea days <
          Grid.runningProfit ammP ureaP gasP maxAmm maxMeth maxUrea maxGas days k) →
      Grid.generateShutdownCrossover ammP ureaP gasP maxAmm maxMeth maxUrea
        maxGas days = none) ∧
    ((∀ k : ℕ, k ≤ 70 →
        Grid.runningProfit ammP ureaP gasP maxAmm maxMeth maxUrea maxGas days k ≤
          Grid.shutdownProfitVal ammP ureaP gasP maxAmm maxUrea days) →
      Grid.generateShutdownCrossover ammP ureaP gasP maxAmm maxMeth maxUrea
        maxGas days = none) ∧
    (∀ c : ℚ, Grid.generateShutdownCrossover ammP ureaP gasP maxAmm maxMeth
        maxUrea maxGas days = some c →
      ∃ k : ℕ, k < 70 ∧
        Grid.runningProfit ammP ureaP gasP maxAmm maxMeth maxUrea maxGas days k ≤
          Grid.shutdownProfitVal ammP ureaP gasP maxAmm maxUrea days ∧
        Grid.shutdownProfitVal ammP ureaP gasP maxAmm maxUrea days <
          Grid.runningProfit ammP ureaP gasP maxAmm maxMeth maxUrea maxGas days
            (k + 1) ∧
        (∀ j, j < k →
          ¬(Grid.runningProfit ammP ureaP gasP maxAmm maxMeth maxUrea maxGas days
              j ≤ Grid.shutdownProfitVal ammP ureaP gasP maxAmm maxUrea days ∧
            Grid.shutdownProfitVal ammP ureaP gasP maxAmm maxUrea days <
              Grid.runningProfit ammP ureaP gasP maxAmm maxMeth maxUrea maxGas
                days (j + 1))) ∧
        c = 5 * (k : ℚ) +
          5 * (Grid.shutdownProfitVal ammP ureaP gasP maxAmm maxUrea days -
            Grid.runningProfit ammP ureaP gasP maxAmm maxMeth maxUrea maxGas days
              k) /
          (Grid.runningProfit ammP ureaP gasP maxAmm maxMeth maxUrea maxGas days
              (k + 1) -
            Grid.runningProfit ammP ureaP gasP maxAmm maxMeth maxUrea maxGas days
              k)) := by
  refine ⟨?_, ?_, ?_⟩
  · intro h
    unfold Grid.generateShutdownCrossover Grid.crossoverOf
    rw [Grid.firstCrossFrom_none_of _ _ 70 0 ?_]
    · rfl
    · intro j _ hj hpair
      exact absurd hpair.1 (not_le.mpr (h j (by omega)))
  · intro h
    unfold Grid.generateShutdownCrossover Grid.crossoverOf
    rw [Grid.firstCrossFrom_none_of _ _ 70 0 ?_]
    · rfl
    · intro j _ hj hpair
      exact absurd hpair.2 (not_lt.mpr (h (j + 1) (by omega)))
  · intro c hc
    unfold Grid.generateShutdownCrossover Grid.crossoverOf at hc
    rw [Option.map_eq_some'] at hc
    obtain ⟨k, hk, hck⟩ := hc
    obtain ⟨-, h2, h3, h4, h5⟩ := Grid.firstCrossFrom_some_spec _ _ 70 0 k hk
    exact ⟨k, by omega, h3, h4, fun j hj => h5 j (by omega) hj, hck.symm⟩

/-- C7 (witness): on a tiny plant every grid point is infeasible (running
profit 0) while the shutdown profit is negative, so the running profit stays
entirely above it and no crossover is reported. -/
theorem C7_witness :
    (∀ k : ℕ, k ≤ 70 →
      Grid.shutdownProfitVal 0 0 5 1 1 1 <
        Grid.runningProfit 0 0 5 1 1 1 1 1 k) ∧
    Grid.generateShutdownCrossover 0 0 5 1 1 1 1 1 = none :=
  ⟨by with_unfolding_all decide,
    (C7_crossover 0 0 5 1 1 1 1 1).1 (by with_unfolding_all decide)⟩

/-- C9: the cost model evaluated at the reference gas price 5 $/MMBTU
reproduces the documented calibration constants exactly — in particular the
Case-A ammonia unit variable cost is exactly 198.60366 (the gas-scaling term
vanishes at ratio 1). -/
theorem C9_calibration :
    (Grid.calcVC 5).amm_A = 198.60366 ∧
    (Grid.calcVC 5).meth = 205.34865 ∧
    (Grid.calcVC 5).urea_A = 146.31378 ∧
    (Grid.calcVC 5).amm_B = 198.60366 + Grid.ammPenalty_B ∧
    (Grid.calcVC 5).urea_B = 146.31378 + Grid.K7 * Grid.ammPenalty_B := by
  refine ⟨?_, ?_, ?_, ?_, ?_⟩ <;>
    norm_num [Grid.calcVC, Grid.VC_amm_base, Grid.VC_meth_base, Grid.VC_urea_base,
      Grid.gasVC_amm, Grid.gasVC_meth, Grid.gasVC_urea, Grid.ammPenalty_B, Grid.K7]

/-- C10: the reported gas flow is `min (base + GT_additional_max) ceiling`
when the base flow is below the ceiling and the base flow otherwise;
`gasBeforeGT` keeps the raw consumption-model flow; within the ceiling the
reported flow never exceeds it, and it is never below the base flow. -/
theorem C10_gtAdditional (b m : ℚ) :
    (b < m → Hooks.applyGTAdditional b m = min (b + Hooks.GT_additional_max) m) ∧
    (m ≤ b → Hooks.applyGTAdditional b m = b) ∧
    b ≤ Hooks.applyGTAdditional b m ∧
    (b ≤ m → Hooks.applyGTAdditional b m ≤ m) ∧
    (∀ g gb, Hooks.makeResultGas b m = some (g, gb) →
      gb = b ∧ g = Hooks.applyGTAdditional b m) := by
  refine ⟨?_, ?_, ?_, ?_, ?_⟩
  · intro hbm
    unfold Hooks.applyGTAdditional
    dsimp only
    rw [if_pos (by linarith : (0:ℚ) < m - b)]
    have h1 : b + min (m - b) Hooks.GT_additional_max =
        min (b + (m - b)) (b + Hooks.GT_additional_max) :=
      (min_add_add_left b (m - b) Hooks.GT_additional_max).symm
    rw [h1]
    have h2 : b + (m - b) = m := by ring
    rw [h2, min_comm]
  · intro hmb
    unfold Hooks.applyGTAdditional
    dsimp only
    rw [if_neg (by linarith : ¬ (0:ℚ) < m - b)]
  · unfold Hooks.applyGTAdditional
    dsimp only
    split_ifs with hh
    · have : (0:ℚ) ≤ min (m - b) Hooks.GT_additional_max :=
        le_min (by linarith) (by unfold Hooks.GT_additional_max; norm_num)
      linarith
    · exact le_refl b
  · intro hbm
    unfold Hooks.applyGTAdditional
    dsimp only
    split_ifs with hh
    · have : min (m - b) Hooks.GT_additional_max ≤ m - b := min_le_left _ _
      linarith
    · exact hbm
  · intro g gb h
    unfold Hooks.makeResultGas at h
    dsimp only at h
    split_ifs at h
    rw [Option.some.injEq, Prod.mk.injEq] at h
    exact ⟨h.2.symm, h.1.symm⟩

/-- C10 (witness): the min form evaluated at a concrete base flow below the
ceiling. -/
theorem C10_witness :
    (1:ℚ) < 2 ∧
    Hooks.applyGTAdditional 1 2 = min (1 + Hooks.GT_additional_max) 2 :=
  ⟨by norm_num, (C10_gtAdditional 1 2).1 (by norm_num)⟩
